import Mathlib

/-!
Shallow embedding of `src/rhreports/rhreports.py` (class `rhreports`), a
matplotlib-based single-page report layout engine.

Modelling conventions:
- Normalized page coordinates are rationals (`ℚ`); Python float literals such
  as `0.075` are taken at their decimal value.
- Every drawing call of the Python class appends primitives (text, horizontal
  lines, sub-axes, images) to the figure owned by the instance.  A method call
  is modelled as a function returning a `StepResult`: the list of primitives
  the call appended (in drawing order), the lines it printed to stdout, and
  `some e` when the call raised the Python exception modelled by `e` after
  having drawn those primitives.
- `plt.imread` is modelled by a caller-supplied map from file name to the
  image's pixel shape `(rows, cols)`; `measureText` (the renderer bounding box
  used by `set_title`) is modelled by a caller-supplied width function.
- Rational division by zero yields 0 in Lean; wherever the Python code would
  raise `ZeroDivisionError` on an int denominator the embedding returns the
  explicit error instead.
-/

/-- Font sizes occurring in the source: numeric point sizes, the string
size `x-small` used as footer default, and matplotlib's default size when a
call passes none. -/
inductive FontSize where
  | pt (q : ℚ)
  | xsmall
  | base
deriving DecidableEq, Repr

/-- Horizontal alignment (`ha` keyword of `ax.text`). -/
inductive HAlign where
  | left
  | center
  | right
deriving DecidableEq, Repr

/-- Colors occurring in the source: `'k'`, the light gray `(0.9,0.9,0.9)`,
matplotlib's `rcParams` default, and a caller-supplied RGB tuple. -/
inductive Color where
  | black
  | lightgray
  | rcdefault
  | rgb (r g b : ℚ)
deriving DecidableEq, Repr

/-- Drawing primitives appended to a figure.  `text` is `ax.text` as used by
the layout methods (bold flag, point size, alignment); `ftext` is the footer
text call which additionally passes color and linespacing; `hline` is
`ax.axhline`; `axesRect` is `fig.add_axes`; `image` is `fig.add_axes`
followed by `imshow` of the named file. -/
inductive Primitive where
  | text (x y : ℚ) (s : String) (bold : Bool) (size : FontSize) (ha : HAlign)
  | ftext (x y : ℚ) (s : String) (size : FontSize) (c : Color) (ls : ℚ) (ha : HAlign)
  | hline (y xmin xmax : ℚ) (c : Color) (lw : ℚ)
  | axesRect (l b w h : ℚ)
  | image (l b w h : ℚ) (src : String)
deriving DecidableEq, Repr

/-- Python exceptions a method call can raise.  `assertionError` is a failed
`assert` (the spec's LayoutViolation); `nameError n` is an unbound variable
`n`; `imreadNone` is the `TypeError` raised by `plt.imread(None)`;
`fileNotFound p` is `plt.imread` on a missing file; `zeroDivision` is
`ZeroDivisionError`. -/
inductive RenderError where
  | assertionError
  | nameError (n : String)
  | imreadNone
  | fileNotFound (p : String)
  | zeroDivision
deriving DecidableEq, Repr

/-- Observable effect of one method call: primitives appended to the
instance's figure (in drawing order), stdout lines printed, and the
exception raised, if any, after those primitives were drawn. -/
structure StepResult where
  prims : List Primitive
  stdout : List String
  err : Option RenderError
deriving DecidableEq, Repr

/-- Page margins `[top, right, bottom, left] = [0.075, 0.075, 0.05, 0.075]`
set in `__init__`. -/
def margin0 : ℚ := 0.075

/-- Right margin `self.margin[1]`. -/
def margin1 : ℚ := 0.075

/-- Bottom margin `self.margin[2]`. -/
def margin2 : ℚ := 0.05

/-- Left margin `self.margin[3]`. -/
def margin3 : ℚ := 0.075

/-- Embedding of `set_title(ypos, title, subtitle)`.  `measure` models the
renderer pass `titleax.get_window_extent(...).width` for the title text. -/
def set_title (measure : String → ℚ) (ypos : ℚ) (title : String)
    (subtitle : Option String) : StepResult :=
  let xpos := margin3
  let titlePrim := Primitive.text xpos ypos title true (.pt 24) .left
  match subtitle with
  | none => ⟨[titlePrim], [], none⟩
  | some s =>
    let xpos2 := xpos + measure title - 0.005 * (title.length : ℚ)
    ⟨[titlePrim, Primitive.text xpos2 ypos s false (.pt 16) .left], [], none⟩

/-- Embedding of `create_axes(pos, ncols)` with `pos = [left, bottom, width,
height]` unpacked: bounds assert, then one `fig.add_axes` per column. -/
def create_axes (x y width height : ℚ) (ncols : ℕ) : StepResult :=
  if ¬ (x + width ≤ 1) then ⟨[], [], some .assertionError⟩
  else if ncols = 0 then ⟨[], [], some .zeroDivision⟩
  else
    let colwidth := width / (ncols : ℚ)
    ⟨(List.range ncols).map
        (fun i => Primitive.axesRect (x + (i : ℚ) * colwidth) y colwidth height),
      [], none⟩

/-- Embedding of `add_text(xpos, ypos, txt)`. -/
def add_text (xpos ypos : ℚ) (txt : String) : StepResult :=
  ⟨[Primitive.text xpos ypos txt false .base .left], [], none⟩

/-- Per-field `strlen = max([len(k), len(str(v))])` of `set_demographics`
(values enter the model already stringified, so `str(v)` is `v`). -/
def fieldStrlen (kv : String × String) : ℕ :=
  max kv.1.length kv.2.length

/-- The `colwidth = (width-0.02)/np.sum(strlen)` of `set_demographics`. -/
def demoColwidth (width : ℚ) (fields : List (String × String)) : ℚ :=
  (width - 0.02) / (((fields.map fieldStrlen).sum : ℕ) : ℚ)

/-- The two text primitives placed for field `i` of `set_demographics`:
left-aligned at the cumulative offset (first iteration handled separately as
in the source), except that the last of two or more fields is right-aligned
at `x+width-0.01`. -/
def demoPair (x y width : ℚ) (fields : List (String × String)) (i : ℕ) :
    List Primitive :=
  let k := (fields.getD i ("", "")).1
  let v := (fields.getD i ("", "")).2
  let xpos :=
    if i = 0 then x + 0.01
    else x + 0.01 + ((((fields.take i).map fieldStrlen).sum : ℕ) : ℚ) *
      demoColwidth width fields
  if fields.length > 1 ∧ i = fields.length - 1 then
    [Primitive.text (x + width - 0.01) (y - 0.015) k false (.pt 7) .right,
     Primitive.text (x + width - 0.01) (y - 0.03) v false (.pt 9) .right]
  else
    [Primitive.text xpos (y - 0.015) k false (.pt 7) .left,
     Primitive.text xpos (y - 0.03) v false (.pt 9) .left]

/-- Embedding of `set_demographics(pos, fields)` with `pos` unpacked.
`fields` is the ordered dict as a list of key/value pairs. -/
def set_demographics (x y width height : ℚ)
    (fields : List (String × String)) : StepResult :=
  if ¬ (x + width ≤ 1) then ⟨[], [], some .assertionError⟩
  else
    let lines := [Primitive.hline y x (x + width) .black 1,
                  Primitive.hline (y - height) x (x + width) .black 1]
    if fields.length = 0 then ⟨lines, [], none⟩
    else ⟨lines ++ (List.range fields.length).flatMap (demoPair x y width fields),
          [], none⟩

/-- A table's data: the ordered dict of column name to ordered dict of row
label to cell value. -/
abbrev TableData := List (String × List (String × String))

/-- Header section of `create_table`: horizontal line, one bold column-name
text per data column at offset `(col+rowheader)*colwidth`, second line. -/
def tableHeaderPrims (x y width colwidth : ℚ) (rhN : ℕ) (data : TableData) :
    List Primitive :=
  [Primitive.hline (y - 0.01) x (x + width) .black 1] ++
  (List.range data.length).map (fun col =>
    Primitive.text (x + 0.015 + (((col + rhN : ℕ)) : ℚ) * colwidth) (y - 0.03)
      (data.getD col ("", [])).1 true (.pt 8) .left) ++
  [Primitive.hline (y - 0.04) x (x + width) .black 1]

/-- Primitives drawn for cell `(col, row)` in the body loop of
`create_table`: row-header label and first-column divider when applicable,
then the cell text and its divider. -/
def tableCellPrims (x y colwidth : ℚ) (rowheader : Bool) (rhN : ℕ)
    (data : TableData) (col row : ℕ) : List Primitive :=
  let values := (data.getD col ("", [])).2
  let key := (values.getD row ("", "")).1
  let value := (values.getD row ("", "")).2
  let i : ℕ := col + rhN
  (if col = 0 ∧ rowheader then
    [Primitive.text (x + 0.01) (y - 0.06 - (row : ℚ) * 0.025) key true (.pt 8) .left,
     Primitive.hline (y - 0.069 - (row : ℚ) * 0.025) x (x + colwidth) .lightgray 1]
   else []) ++
  [Primitive.text (x + 0.015 + (i : ℚ) * colwidth) (y - 0.06 - (row : ℚ) * 0.025)
      value false (.pt 8) .left,
   Primitive.hline (y - 0.069 - (row : ℚ) * 0.025) (x + 0.01 + (i : ℚ) * colwidth)
      (x + ((i : ℚ) + 1) * colwidth) .lightgray 1]

/-- Body section of `create_table`: the nested loop over columns and rows. -/
def tableBodyPrims (x y colwidth : ℚ) (rowheader : Bool) (rhN : ℕ)
    (data : TableData) : List Primitive :=
  (List.range data.length).flatMap (fun col =>
    (List.range (data.getD col ("", [])).2.length).flatMap
      (fun row => tableCellPrims x y colwidth rowheader rhN data col row))

/-- Final value of the Python loop variable `row` after the body loop of
`create_table`: `none` when no inner iteration ever ran (the name stays
unbound), otherwise the last row index of the last column with rows. -/
def lastRowIdx (data : TableData) : Option ℕ :=
  data.foldl (fun acc kv => if kv.2.isEmpty then acc else some (kv.2.length - 1)) none

/-- Embedding of `create_table(pos, data, rowheader)`: bounds assert, column
width `width/(len(data)+rowheader)`, header and body sections, then the
trailing divider which reads the leftover loop variables `col` and `row`
(raising `NameError` when a loop never bound them).  The fourth element of
`pos` is unpacked to `_` in the source and unused. -/
def create_table (x y width _height : ℚ) (data : TableData) (rowheader : Bool) :
    StepResult :=
  if ¬ (x + width ≤ 1) then ⟨[], [], some .assertionError⟩
  else
    let rhN : ℕ := if rowheader then 1 else 0
    let ncols := data.length + rhN
    if ncols = 0 then ⟨[], [], some .zeroDivision⟩
    else
      let colwidth := width / (ncols : ℚ)
      let header := tableHeaderPrims x y width colwidth rhN data
      let body := tableBodyPrims x y colwidth rowheader rhN data
      if data.length = 0 then ⟨header ++ body, [], some (.nameError "col")⟩
      else
        match lastRowIdx data with
        | none => ⟨header ++ body, [], some (.nameError "row")⟩
        | some row =>
          let col := data.length - 1
          ⟨header ++ body ++
            [Primitive.hline (y - 0.069 - (row : ℚ) * 0.025)
              (x + 0.01 + (col : ℚ) * colwidth) (x + ((col : ℚ) + 1) * colwidth)
              .lightgray 1],
            [], none⟩

/-- One of the three footer zones. -/
inductive FPos where
  | left
  | center
  | right
deriving DecidableEq, Repr

/-- Alignment passed as `ha=pos` for footer text. -/
def FPos.halign : FPos → HAlign
  | .left => .left
  | .center => .center
  | .right => .right

/-- A footer entry as described in the `set_footer` docstring: a tagged dict
with type `text` (optional color, fontsize, linespacing), type `img`
(`src` optional to model its absence, optional height), or any other type
tag. -/
inductive FooterEntry where
  | text (content : String) (color : Option Color) (fontsize : Option FontSize)
      (linespacing : Option ℚ)
  | img (src : Option String) (height : Option ℚ)
  | other (tag : String)
deriving DecidableEq, Repr

/-- The footer spec dict, keyed by position. -/
structure FooterSpec where
  left : Option FooterEntry
  center : Option FooterEntry
  right : Option FooterEntry
deriving DecidableEq, Repr

/-- Effect of processing one present footer entry at position `p`.
For `img` with no `src`, the source evaluates
`print('Error: src not found')` (so `pngfile = None`) and then
`plt.imread(None)` raises; for a missing file `plt.imread` raises; the
Python `height/im.shape[0]` raises on a zero pixel height.  An entry whose
type matches no branch of the `if`/`elif` chain produces nothing. -/
def footerEntryPrims (imread : String → Option (ℕ × ℕ)) (ypos : ℚ) (p : FPos)
    (e : FooterEntry) : StepResult :=
  match e with
  | .text content color fontsize linespacing =>
    let textcolor := color.getD .rcdefault
    let fs := fontsize.getD .xsmall
    let ls := linespacing.getD 1.5
    let xpos :=
      match p with
      | .left => margin3
      | .center => 0.5
      | .right => 1 - margin1
    ⟨[Primitive.ftext xpos ypos content fs textcolor ls p.halign], [], none⟩
  | .img src heightOpt =>
    match src with
    | none => ⟨[], ["Error: src not found"], some .imreadNone⟩
    | some f =>
      match imread f with
      | none => ⟨[], [], some (.fileNotFound f)⟩
      | some (hpx, wpx) =>
        let height := heightOpt.getD ((1 - margin0 - ypos) / 15)
        if hpx = 0 then ⟨[], [], some .zeroDivision⟩
        else
          let width := (wpx : ℚ) * height / (hpx : ℚ)
          let xpos :=
            match p with
            | .left => margin3
            | .center => 0.5 - width / 2
            | .right => 1 - margin1 - width
          ⟨[Primitive.image xpos (ypos - 0.008) width height f], [], none⟩
  | .other _ => ⟨[], [], none⟩

/-- Sequences two call fragments: if the first raised, the second never
runs (the exception propagates); otherwise outputs accumulate. -/
def seqStep (a b : StepResult) : StepResult :=
  match a.err with
  | some _ => a
  | none => ⟨a.prims ++ b.prims, a.stdout ++ b.stdout, b.err⟩

/-- Embedding of `set_footer(data, ypos)`: resolve `ypos` to the bottom
margin when absent, then process the positions `left`, `center`, `right`
in that order, skipping absent keys. -/
def set_footer (imread : String → Option (ℕ × ℕ)) (data : FooterSpec)
    (yposOpt : Option ℚ) : StepResult :=
  let ypos := yposOpt.getD margin2
  let entries : List (FPos × Option FooterEntry) :=
    [(.left, data.left), (.center, data.center), (.right, data.right)]
  entries.foldl
    (fun acc pe =>
      match pe.2 with
      | none => acc
      | some e => seqStep acc (footerEntryPrims imread ypos pe.1 e))
    ⟨[], [], none⟩

/-- Global pyplot state shared by all `rhreports` instances: the list of
open figures (a figure is its list of primitives, indexed by creation
order) and the index of the current figure, which `plt.subplots` sets to
the newly created one. -/
structure PyplotState where
  figs : List (List Primitive)
  current : ℕ
deriving DecidableEq, Repr

/-- Embedding of `plt.subplots()` in `__init__`: appends a fresh figure,
makes it current, and returns its index (the new instance's `self.fig`). -/
def pyplot_subplots (s : PyplotState) : PyplotState × ℕ :=
  (⟨s.figs ++ [[]], s.figs.length⟩, s.figs.length)

/-- A drawing method invoked on the instance owning figure `fid`: its
primitives go to that figure (all drawing methods use `self.ax` /
`self.fig`), leaving the current-figure pointer unchanged. -/
def fig_draw (s : PyplotState) (fid : ℕ) (r : StepResult) : PyplotState :=
  ⟨s.figs.set fid (s.figs.getD fid [] ++ r.prims), s.current⟩

/-- Embedding of `save(filename)` called on the instance owning figure
`fid`: `plt.savefig(filename)` renders the CURRENT pyplot figure (not
`self.fig`), and `plt.close(self.fig)` then destroys the instance's own
figure.  Returns the exported surface and the new global state. -/
def rh_save (s : PyplotState) (fid : ℕ) : List Primitive × PyplotState :=
  (s.figs.getD s.current [], ⟨s.figs.set fid [], s.current⟩)

/-- Instance-isolation scenario, step 1: canvas A is created first
(`rhreports()` runs `plt.subplots`). -/
def canvasA : PyplotState × ℕ := pyplot_subplots ⟨[], 0⟩

/-- Instance-isolation scenario, step 2: canvas B is created second, making
B's figure the current pyplot figure. -/
def canvasB : PyplotState × ℕ := pyplot_subplots canvasA.1

/-- Instance-isolation scenario, step 3: one text is drawn on B via
`add_text`. -/
def scenarioState : PyplotState :=
  fig_draw canvasB.1 canvasB.2 (add_text 0.5 0.5 "drawn on B")

/-- Every branch of `demoPair` emits exactly two text primitives. -/
lemma demoPair_length (x y width : ℚ) (fields : List (String × String))
    (j : ℕ) : (demoPair x y width fields j).length = 2 := by
  simp only [demoPair]
  split <;> rfl

/-- Length of a flatMap over an initial range when every chunk has two
elements. -/
lemma length_flatMap_range_two (f : ℕ → List Primitive)
    (hf : ∀ j, (f j).length = 2) (n : ℕ) :
    ((List.range n).flatMap f).length = 2 * n := by
  induction n with
  | zero => rfl
  | succ k ih =>
    rw [List.range_succ, List.flatMap_append, List.length_append, ih]
    simp [hf k]
    ring

/-- Indexing into a flatMap over an initial range when every chunk has two
elements: position `2*i` and `2*i+1` land in chunk `i`. -/
lemma flatMap_range_two_getElem (f : ℕ → List Primitive)
    (hf : ∀ j, (f j).length = 2) (n i : ℕ) (h : i < n) :
    ((List.range n).flatMap f)[2 * i]? = (f i)[0]? ∧
    ((List.range n).flatMap f)[2 * i + 1]? = (f i)[1]? := by
  induction n with
  | zero => exact absurd h (Nat.not_lt_zero i)
  | succ k ih =>
    rw [List.range_succ, List.flatMap_append]
    rcases Nat.lt_or_ge i k with hik | hik
    · have hlen := length_flatMap_range_two f hf k
      have h1 : 2 * i < ((List.range k).flatMap f).length := by omega
      have h2 : 2 * i + 1 < ((List.range k).flatMap f).length := by omega
      rw [List.getElem?_append_left h1, List.getElem?_append_left h2]
      exact ih hik
    · have hik2 : i = k := by omega
      subst hik2
      have hlen := length_flatMap_range_two f hf i
      have h1 : ((List.range i).flatMap f).length ≤ 2 * i := by omega
      have h2 : ((List.range i).flatMap f).length ≤ 2 * i + 1 := by omega
      rw [List.getElem?_append_right h1, List.getElem?_append_right h2, hlen]
      have e1 : 2 * i - 2 * i = 0 := by omega
      have e2 : 2 * i + 1 - 2 * i = 1 := by omega
      rw [e1, e2]
      simp [List.flatMap_cons]

/-- C1: for every region with `left + width > 1`, each of `create_axes`,
`set_demographics` and `create_table` fails immediately with the
LayoutViolation (failed `assert x+width<=1`), drawing nothing: the bounds
check precedes any drawing, so the failing call adds no primitive to the
surface. -/
theorem region_bounds_checked_first (x y width h : ℚ) (hx : 1 < x + width)
    (n : ℕ) (fields : List (String × String)) (data : TableData)
    (rowheader : Bool) :
    create_axes x y width h n = ⟨[], [], some .assertionError⟩ ∧
    set_demographics x y width h fields = ⟨[], [], some .assertionError⟩ ∧
    create_table x y width h data rowheader =
      ⟨[], [], some .assertionError⟩ := by
  have hc : ¬ (x + width ≤ 1) := not_le.mpr hx
  refine ⟨?_, ?_, ?_⟩
  · unfold create_axes
    rw [if_pos hc]
  · unfold set_demographics
    rw [if_pos hc]
  · unfold create_table
    rw [if_pos hc]

/-- Witness for C1 at the spec's example region `left=0.8, width=0.3`. -/
theorem region_bounds_checked_first_witness :
    (1 : ℚ) < 0.8 + 0.3 ∧
    (create_axes 0.8 0.2 0.3 0.1 1 = ⟨[], [], some .assertionError⟩ ∧
     set_demographics 0.8 0.2 0.3 0.1 [("name", "x")] =
       ⟨[], [], some .assertionError⟩ ∧
     create_table 0.8 0.2 0.3 0.1 [("colA", [("row1", "v")])] true =
       ⟨[], [], some .assertionError⟩) :=
  ⟨by norm_num,
   region_bounds_checked_first 0.8 0.2 0.3 0.1 (by norm_num) 1 [("name", "x")]
     [("colA", [("row1", "v")])] true⟩

/-- C5: `set_title` with no subtitle places exactly the bold title at
`marginLeft`; with a subtitle it places exactly two texts, the subtitle at
`marginLeft + measuredTitleWidth - 0.005 * len(title)`. -/
theorem title_subtitle_offset (measure : String → ℚ) (ypos : ℚ)
    (title s : String) :
    set_title measure ypos title none =
      ⟨[Primitive.text margin3 ypos title true (.pt 24) .left], [], none⟩ ∧
    set_title measure ypos title (some s) =
      ⟨[Primitive.text margin3 ypos title true (.pt 24) .left,
        Primitive.text (margin3 + measure title - 0.005 * (title.length : ℚ))
          ypos s false (.pt 16) .left], [], none⟩ :=
  ⟨rfl, rfl⟩

/-- C7: a footer image entry without a `src` key makes the source evaluate
`print('Error: src not found')` (stdout, not an exception) and then crash in
`plt.imread(None)` with an error that names no path; nothing is drawn. -/
theorem footer_missing_src_behavior :
    set_footer (fun _ => none) ⟨some (.img none none), none, none⟩ none =
      ⟨[], ["Error: src not found"], some .imreadNone⟩ := rfl

/-- C8 counterexample: a footer entry whose type is neither `text` nor
`img` is silently skipped — `set_footer` succeeds (no error) and draws
nothing, contradicting the claim that it fails. -/
theorem footer_unknown_type_counterexample :
    (set_footer (fun _ => none) ⟨some (.other "stamp"), none, none⟩ none).err =
      none ∧
    (set_footer (fun _ => none) ⟨some (.other "stamp"), none, none⟩ none).prims =
      [] :=
  ⟨rfl, rfl⟩

/-- C8 amended: a footer entry whose type is neither `text` nor `img` is
silently skipped at any of the three positions: no primitive, no stdout, no
error. -/
theorem footer_unknown_type_skipped (imread : String → Option (ℕ × ℕ))
    (tag : String) (yp : Option ℚ) :
    set_footer imread ⟨some (.other tag), none, none⟩ yp = ⟨[], [], none⟩ ∧
    set_footer imread ⟨none, some (.other tag), none⟩ yp = ⟨[], [], none⟩ ∧
    set_footer imread ⟨none, none, some (.other tag)⟩ yp = ⟨[], [], none⟩ :=
  ⟨rfl, rfl, rfl⟩

/-- C9: `save` on canvas A exports the CURRENT global pyplot figure — in the
scenario where canvas B was created after A and drawn on, `A.save` exports
B's surface (non-empty) and not A's own (empty) surface, because
`plt.savefig` acts on the globally current figure rather than `self.fig`. -/
theorem save_exports_other_instance_figure :
    (rh_save scenarioState canvasA.2).1 =
      scenarioState.figs.getD canvasB.2 [] ∧
    scenarioState.figs.getD canvasA.2 [] = [] ∧
    (rh_save scenarioState canvasA.2).1 ≠
      scenarioState.figs.getD canvasA.2 [] :=
  ⟨rfl, rfl, fun hcontra => List.cons_ne_nil _ _ hcontra⟩

/-- C10: on an empty table spec with the default row-header flag,
`create_table` draws the two header separator lines and then raises the
unbound-variable error for `col` at the trailing-divider step; the two
lines remain drawn, so the failing call is not atomic. -/
theorem table_empty_spec_partial (x y width h : ℚ) (hx : x + width ≤ 1) :
    create_table x y width h [] true =
      ⟨[Primitive.hline (y - 0.01) x (x + width) .black 1,
        Primitive.hline (y - 0.04) x (x + width) .black 1], [],
       some (.nameError "col")⟩ := by
  unfold create_table
  rw [if_neg (not_not.mpr hx)]
  rfl

/-- Witness for C10 at a concrete valid region. -/
theorem table_empty_spec_partial_witness :
    (0.1 : ℚ) + 0.8 ≤ 1 ∧
    create_table 0.1 0.9 0.8 0.2 [] true =
      ⟨[Primitive.hline (0.9 - 0.01) 0.1 (0.1 + 0.8) .black 1,
        Primitive.hline (0.9 - 0.04) 0.1 (0.1 + 0.8) .black 1], [],
       some (.nameError "col")⟩ :=
  ⟨by norm_num, table_empty_spec_partial 0.1 0.9 0.8 0.2 (by norm_num)⟩

/-- C2: in a non-empty rendered FieldSet, with
`colWidth = (width - 0.02) / sum strlen`, field `i` (for every field before
the last) is placed left-aligned with label and value starting at
`x + 0.01 + (strlen_0 + ... + strlen_(i-1)) * colWidth`; in particular field
0 starts at `x + 0.01`. -/
theorem demographics_field_xstarts (x y width h : ℚ)
    (fields : List (String × String)) (i : ℕ)
    (hx : x + width ≤ 1) (hi : i + 1 < fields.length) :
    (set_demographics x y width h fields).prims[2 + 2 * i]? =
      some (Primitive.text
        (x + 0.01 + ((((fields.take i).map fieldStrlen).sum : ℕ) : ℚ) *
          ((width - 0.02) / (((fields.map fieldStrlen).sum : ℕ) : ℚ)))
        (y - 0.015) (fields.getD i ("", "")).1 false (.pt 7) .left) ∧
    (set_demographics x y width h fields).prims[2 + 2 * i + 1]? =
      some (Primitive.text
        (x + 0.01 + ((((fields.take i).map fieldStrlen).sum : ℕ) : ℚ) *
          ((width - 0.02) / (((fields.map fieldStrlen).sum : ℕ) : ℚ)))
        (y - 0.03) (fields.getD i ("", "")).2 false (.pt 9) .left) := by
  have hne : ¬ fields.length = 0 := by omega
  have hprims : (set_demographics x y width h fields).prims =
      Primitive.hline y x (x + width) .black 1 ::
      Primitive.hline (y - h) x (x + width) .black 1 ::
      (List.range fields.length).flatMap (demoPair x y width fields) := by
    unfold set_demographics
    rw [if_neg (not_not.mpr hx), if_neg hne]
    rfl
  have hpair := flatMap_range_two_getElem (demoPair x y width fields)
    (demoPair_length x y width fields) fields.length i (by omega)
  have hcond : ¬ (fields.length > 1 ∧ i = fields.length - 1) := by
    rintro ⟨h1, h2⟩
    omega
  have hifx : (if i = 0 then x + 0.01
      else x + 0.01 + ((((fields.take i).map fieldStrlen).sum : ℕ) : ℚ) *
        demoColwidth width fields) =
      x + 0.01 + ((((fields.take i).map fieldStrlen).sum : ℕ) : ℚ) *
        ((width - 0.02) / (((fields.map fieldStrlen).sum : ℕ) : ℚ)) := by
    by_cases h0 : i = 0
    · subst h0
      simp
    · rw [if_neg h0]
      unfold demoColwidth
      rfl
  have hd0 : (demoPair x y width fields i)[0]? =
      some (Primitive.text
        (x + 0.01 + ((((fields.take i).map fieldStrlen).sum : ℕ) : ℚ) *
          ((width - 0.02) / (((fields.map fieldStrlen).sum : ℕ) : ℚ)))
        (y - 0.015) (fields.getD i ("", "")).1 false (.pt 7) .left) := by
    simp only [demoPair]
    rw [if_neg hcond, hifx]
    rfl
  have hd1 : (demoPair x y width fields i)[1]? =
      some (Primitive.text
        (x + 0.01 + ((((fields.take i).map fieldStrlen).sum : ℕ) : ℚ) *
          ((width - 0.02) / (((fields.map fieldStrlen).sum : ℕ) : ℚ)))
        (y - 0.03) (fields.getD i ("", "")).2 false (.pt 9) .left) := by
    simp only [demoPair]
    rw [if_neg hcond, hifx]
    rfl
  constructor
  · rw [hprims]
    have e1 : 2 + 2 * i = (2 * i) + 1 + 1 := by omega
    rw [e1, List.getElem?_cons_succ, List.getElem?_cons_succ, hpair.1, hd0]
  · rw [hprims]
    have e2 : 2 + 2 * i + 1 = (2 * i + 1) + 1 + 1 := by omega
    rw [e2, List.getElem?_cons_succ, List.getElem?_cons_succ, hpair.2, hd1]

/-- Witness for C2 at a concrete three-field FieldSet, checking field 1. -/
theorem demographics_field_xstarts_witness :
    (0.1 : ℚ) + 0.5 ≤ 1 ∧
    1 + 1 < ([("ab", "c"), ("d", "efg"), ("hi", "j")] :
      List (String × String)).length ∧
    ((set_demographics 0.1 0.9 0.5 0.05
        [("ab", "c"), ("d", "efg"), ("hi", "j")]).prims[2 + 2 * 1]? =
      some (Primitive.text
        (0.1 + 0.01 + (((([("ab", "c"), ("d", "efg"), ("hi", "j")] :
            List (String × String)).take 1).map fieldStrlen).sum : ℚ) *
          ((0.5 - 0.02) / ((([("ab", "c"), ("d", "efg"), ("hi", "j")] :
            List (String × String)).map fieldStrlen).sum : ℚ)))
        (0.9 - 0.015)
        (([("ab", "c"), ("d", "efg"), ("hi", "j")] :
          List (String × String)).getD 1 ("", "")).1 false (.pt 7) .left) ∧
    (set_demographics 0.1 0.9 0.5 0.05
        [("ab", "c"), ("d", "efg"), ("hi", "j")]).prims[2 + 2 * 1 + 1]? =
      some (Primitive.text
        (0.1 + 0.01 + (((([("ab", "c"), ("d", "efg"), ("hi", "j")] :
            List (String × String)).take 1).map fieldStrlen).sum : ℚ) *
          ((0.5 - 0.02) / ((([("ab", "c"), ("d", "efg"), ("hi", "j")] :
            List (String × String)).map fieldStrlen).sum : ℚ)))
        (0.9 - 0.03)
        (([("ab", "c"), ("d", "efg"), ("hi", "j")] :
          List (String × String)).getD 1 ("", "")).2 false (.pt 9) .left)) :=
  ⟨by norm_num, by decide,
   demographics_field_xstarts 0.1 0.9 0.5 0.05
     [("ab", "c"), ("d", "efg"), ("hi", "j")] 1 (by norm_num) (by decide)⟩

/-- C3: with at least two fields, the last field's label and value are
right-aligned at `x + width - 0.01` independently of its string length and
of the other fields; with exactly one field, the single field is
left-aligned at `x + 0.01`. -/
theorem demographics_last_field_right (x y width h : ℚ)
    (fields : List (String × String)) (hx : x + width ≤ 1)
    (h2 : 2 ≤ fields.length) :
    (set_demographics x y width h fields).prims[2 + 2 * (fields.length - 1)]? =
      some (Primitive.text (x + width - 0.01) (y - 0.015)
        (fields.getD (fields.length - 1) ("", "")).1 false (.pt 7) .right) ∧
    (set_demographics x y width h fields).prims[2 + 2 * (fields.length - 1) + 1]? =
      some (Primitive.text (x + width - 0.01) (y - 0.03)
        (fields.getD (fields.length - 1) ("", "")).2 false (.pt 9) .right) ∧
    ∀ (k v : String), set_demographics x y width h [(k, v)] =
      ⟨[Primitive.hline y x (x + width) .black 1,
        Primitive.hline (y - h) x (x + width) .black 1,
        Primitive.text (x + 0.01) (y - 0.015) k false (.pt 7) .left,
        Primitive.text (x + 0.01) (y - 0.03) v false (.pt 9) .left],
       [], none⟩ := by
  have hne : ¬ fields.length = 0 := by omega
  have hprims : (set_demographics x y width h fields).prims =
      Primitive.hline y x (x + width) .black 1 ::
      Primitive.hline (y - h) x (x + width) .black 1 ::
      (List.range fields.length).flatMap (demoPair x y width fields) := by
    unfold set_demographics
    rw [if_neg (not_not.mpr hx), if_neg hne]
    rfl
  have hpair := flatMap_range_two_getElem (demoPair x y width fields)
    (demoPair_length x y width fields) fields.length (fields.length - 1)
    (by omega)
  have hd0 : (demoPair x y width fields (fields.length - 1))[0]? =
      some (Primitive.text (x + width - 0.01) (y - 0.015)
        (fields.getD (fields.length - 1) ("", "")).1 false (.pt 7) .right) := by
    simp only [demoPair, and_true]
    rw [if_pos (show fields.length > 1 by omega)]
    rfl
  have hd1 : (demoPair x y width fields (fields.length - 1))[1]? =
      some (Primitive.text (x + width - 0.01) (y - 0.03)
        (fields.getD (fields.length - 1) ("", "")).2 false (.pt 9) .right) := by
    simp only [demoPair, and_true]
    rw [if_pos (show fields.length > 1 by omega)]
    rfl
  refine ⟨?_, ?_, ?_⟩
  · rw [hprims]
    have e1 : 2 + 2 * (fields.length - 1) = (2 * (fields.length - 1)) + 1 + 1 := by
      omega
    rw [e1, List.getElem?_cons_succ, List.getElem?_cons_succ, hpair.1, hd0]
  · rw [hprims]
    have e2 : 2 + 2 * (fields.length - 1) + 1 =
        (2 * (fields.length - 1) + 1) + 1 + 1 := by
      omega
    rw [e2, List.getElem?_cons_succ, List.getElem?_cons_succ, hpair.2, hd1]
  · intro k v
    unfold set_demographics
    rw [if_neg (not_not.mpr hx)]
    rfl

/-- Witness for C3 at a concrete two-field FieldSet. -/
theorem demographics_last_field_right_witness :
    (0.1 : ℚ) + 0.5 ≤ 1 ∧
    2 ≤ ([("a", "b"), ("cd", "e")] : List (String × String)).length ∧
    ((set_demographics 0.1 0.9 0.5 0.05 [("a", "b"), ("cd", "e")]).prims[2 +
        2 * (([("a", "b"), ("cd", "e")] : List (String × String)).length - 1)]? =
      some (Primitive.text (0.1 + 0.5 - 0.01) (0.9 - 0.015)
        (([("a", "b"), ("cd", "e")] : List (String × String)).getD
          (([("a", "b"), ("cd", "e")] : List (String × String)).length - 1)
          ("", "")).1 false (.pt 7) .right) ∧
    (set_demographics 0.1 0.9 0.5 0.05 [("a", "b"), ("cd", "e")]).prims[2 +
        2 * (([("a", "b"), ("cd", "e")] : List (String × String)).length - 1) + 1]? =
      some (Primitive.text (0.1 + 0.5 - 0.01) (0.9 - 0.03)
        (([("a", "b"), ("cd", "e")] : List (String × String)).getD
          (([("a", "b"), ("cd", "e")] : List (String × String)).length - 1)
          ("", "")).2 false (.pt 9) .right) ∧
    ∀ (k v : String), set_demographics 0.1 0.9 0.5 0.05 [(k, v)] =
      ⟨[Primitive.hline 0.9 0.1 (0.1 + 0.5) .black 1,
        Primitive.hline (0.9 - 0.05) 0.1 (0.1 + 0.5) .black 1,
        Primitive.text (0.1 + 0.01) (0.9 - 0.015) k false (.pt 7) .left,
        Primitive.text (0.1 + 0.01) (0.9 - 0.03) v false (.pt 9) .left],
       [], none⟩) :=
  ⟨by norm_num, by decide,
   demographics_last_field_right 0.1 0.9 0.5 0.05 [("a", "b"), ("cd", "e")]
     (by norm_num) (by decide)⟩

/-- Prims of a `create_table` call on a valid region with at least one data
column: the header section, then the body section, then some trailing
primitives. -/
lemma create_table_prims_structure (x y width h : ℚ) (data : TableData)
    (rowheader : Bool) (hx : x + width ≤ 1) (hd : ¬ data.length = 0) :
    ∃ tail : List Primitive,
      (create_table x y width h data rowheader).prims =
        tableHeaderPrims x y width
            (width / (((data.length + (if rowheader then 1 else 0) : ℕ)) : ℚ))
            (if rowheader then 1 else 0) data ++
          (tableBodyPrims x y
              (width / (((data.length + (if rowheader then 1 else 0) : ℕ)) : ℚ))
              rowheader (if rowheader then 1 else 0) data ++ tail) := by
  unfold create_table
  rw [if_neg (not_not.mpr hx)]
  have hnc : ¬ (data.length + (if rowheader then 1 else 0) = 0) := by
    rcases rowheader
    · simpa using hd
    · simp
  rw [if_neg hnc, if_neg hd]
  rcases hlr : lastRowIdx data with _ | row
  · exact ⟨[], by simp⟩
  · refine ⟨[Primitive.hline (y - 0.069 - (row : ℚ) * 0.025)
      (x + 0.01 + ((data.length - 1 : ℕ) : ℚ) *
        (width / (((data.length + (if rowheader then 1 else 0) : ℕ)) : ℚ)))
      (x + (((data.length - 1 : ℕ) : ℚ) + 1) *
        (width / (((data.length + (if rowheader then 1 else 0) : ℕ)) : ℚ)))
      .lightgray 1], ?_⟩
    simp [List.append_assoc]

/-- C4: every table column has the same width
`width / (numDataColumns + rowheader)`, and column `c`'s header text and its
cell texts (row `r`) are placed at
`x + 0.015 + (c + rowheader) * colwidth`, independent of cell content. -/
theorem table_equal_column_geometry (x y width h : ℚ) (data : TableData)
    (rowheader : Bool) (c r : ℕ) (hx : x + width ≤ 1) (hc : c < data.length)
    (hr : r < (data.getD c ("", [])).2.length) :
    (create_table x y width h data rowheader).prims[1 + c]? =
      some (Primitive.text
        (x + 0.015 + (((c + (if rowheader then 1 else 0) : ℕ)) : ℚ) *
          (width / (((data.length + (if rowheader then 1 else 0) : ℕ)) : ℚ)))
        (y - 0.03) (data.getD c ("", [])).1 true (.pt 8) .left) ∧
    Primitive.text
        (x + 0.015 + (((c + (if rowheader then 1 else 0) : ℕ)) : ℚ) *
          (width / (((data.length + (if rowheader then 1 else 0) : ℕ)) : ℚ)))
        (y - 0.06 - (r : ℚ) * 0.025)
        ((data.getD c ("", [])).2.getD r ("", "")).2 false (.pt 8) .left
      ∈ (create_table x y width h data rowheader).prims := by
  obtain ⟨tail, hprims⟩ :=
    create_table_prims_structure x y width h data rowheader hx (by omega)
  constructor
  · rw [hprims]
    unfold tableHeaderPrims
    simp only [List.cons_append, List.nil_append, List.append_assoc]
    have e1 : 1 + c = c + 1 := by omega
    rw [e1, List.getElem?_cons_succ]
    rw [List.getElem?_append_left (by simpa using hc)]
    rw [List.getElem?_map, List.getElem?_range hc]
    rfl
  · rw [hprims]
    refine List.mem_append_right _ (List.mem_append_left _ ?_)
    unfold tableBodyPrims
    refine List.mem_flatMap.mpr ⟨c, List.mem_range.mpr hc, ?_⟩
    refine List.mem_flatMap.mpr ⟨r, List.mem_range.mpr hr, ?_⟩
    simp only [tableCellPrims]
    refine List.mem_append_right _ ?_
    exact List.mem_cons_self _ _

/-- Witness for C4 at a concrete two-column table with a row header. -/
theorem table_equal_column_geometry_witness :
    (0.1 : ℚ) + 0.8 ≤ 1 ∧
    1 < ([("A", [("r1", "a1"), ("r2", "a2")]), ("B", [("r1", "b1"), ("r2", "b2")])] :
      TableData).length ∧
    0 < (([("A", [("r1", "a1"), ("r2", "a2")]), ("B", [("r1", "b1"), ("r2", "b2")])] :
      TableData).getD 1 ("", [])).2.length ∧
    ((create_table 0.1 0.9 0.8 0.3
        [("A", [("r1", "a1"), ("r2", "a2")]), ("B", [("r1", "b1"), ("r2", "b2")])]
        true).prims[1 + 1]? =
      some (Primitive.text
        (0.1 + 0.015 + (((1 + (if true then 1 else 0) : ℕ)) : ℚ) *
          (0.8 / (((([("A", [("r1", "a1"), ("r2", "a2")]),
              ("B", [("r1", "b1"), ("r2", "b2")])] : TableData).length +
            (if true then 1 else 0) : ℕ)) : ℚ)))
        (0.9 - 0.03)
        (([("A", [("r1", "a1"), ("r2", "a2")]), ("B", [("r1", "b1"), ("r2", "b2")])] :
          TableData).getD 1 ("", [])).1 true (.pt 8) .left) ∧
    Primitive.text
        (0.1 + 0.015 + (((1 + (if true then 1 else 0) : ℕ)) : ℚ) *
          (0.8 / (((([("A", [("r1", "a1"), ("r2", "a2")]),
              ("B", [("r1", "b1"), ("r2", "b2")])] : TableData).length +
            (if true then 1 else 0) : ℕ)) : ℚ)))
        (0.9 - 0.06 - ((0 : ℕ) : ℚ) * 0.025)
        ((([("A", [("r1", "a1"), ("r2", "a2")]), ("B", [("r1", "b1"), ("r2", "b2")])] :
          TableData).getD 1 ("", [])).2.getD 0 ("", "")).2 false (.pt 8) .left
      ∈ (create_table 0.1 0.9 0.8 0.3
        [("A", [("r1", "a1"), ("r2", "a2")]), ("B", [("r1", "b1"), ("r2", "b2")])]
        true).prims) :=
  ⟨by norm_num, by decide, by decide,
   table_equal_column_geometry 0.1 0.9 0.8 0.3
     [("A", [("r1", "a1"), ("r2", "a2")]), ("B", [("r1", "b1"), ("r2", "b2")])]
     true 1 0 (by norm_num) (by decide) (by decide)⟩

/-- C6: a rendered footer image with requested height `hgt` gets width
`hgt * (imageWidthPx / imageHeightPx)` (aspect-preserving, linear in the
height); with no height given, the height defaults to
`(1 - marginTop - ypos) / 15`. -/
theorem footer_image_aspect_and_default_height
    (imread : String → Option (ℕ × ℕ)) (yp : ℚ) (f : String) (hgt : ℚ)
    (hpx wpx : ℕ) (him : imread f = some (hpx, wpx)) (hpos : 0 < hpx) :
    (set_footer imread ⟨some (.img (some f) (some hgt)), none, none⟩
        (some yp)).prims =
      [Primitive.image margin3 (yp - 0.008) (hgt * ((wpx : ℚ) / (hpx : ℚ)))
        hgt f] ∧
    (set_footer imread ⟨some (.img (some f) none), none, none⟩
        (some yp)).prims =
      [Primitive.image margin3 (yp - 0.008)
        (((1 - margin0 - yp) / 15) * ((wpx : ℚ) / (hpx : ℚ)))
        ((1 - margin0 - yp) / 15) f] := by
  have hne : ¬ hpx = 0 := hpos.ne'
  have hfe : ∀ ho : Option ℚ,
      footerEntryPrims imread yp .left (.img (some f) ho) =
      ⟨[Primitive.image margin3 (yp - 0.008)
          ((wpx : ℚ) * (ho.getD ((1 - margin0 - yp) / 15)) / (hpx : ℚ))
          (ho.getD ((1 - margin0 - yp) / 15)) f], [], none⟩ := by
    intro ho
    simp only [footerEntryPrims, him]
    rw [if_neg hne]
  have harith : ∀ q : ℚ, (wpx : ℚ) * q / (hpx : ℚ) = q * ((wpx : ℚ) / (hpx : ℚ)) := by
    intro q
    ring
  constructor
  · have h1 : set_footer imread ⟨some (.img (some f) (some hgt)), none, none⟩
        (some yp) =
        seqStep ⟨[], [], none⟩
          (footerEntryPrims imread yp .left (.img (some f) (some hgt))) := rfl
    rw [h1, hfe (some hgt)]
    show [Primitive.image margin3 (yp - 0.008) ((wpx : ℚ) * hgt / (hpx : ℚ)) hgt f] = _
    rw [harith]
  · have h2 : set_footer imread ⟨some (.img (some f) none), none, none⟩
        (some yp) =
        seqStep ⟨[], [], none⟩
          (footerEntryPrims imread yp .left (.img (some f) none)) := rfl
    rw [h2, hfe none]
    show [Primitive.image margin3 (yp - 0.008)
      ((wpx : ℚ) * ((1 - margin0 - yp) / 15) / (hpx : ℚ))
      ((1 - margin0 - yp) / 15) f] = _
    rw [harith]

/-- Witness for C6 with a 2x3-pixel image and height 0.1, and the
default-height case at footer y-position 0.05. -/
theorem footer_image_aspect_witness :
    (fun s => if s = "logo.png" then some ((2 : ℕ), (3 : ℕ)) else none) "logo.png" =
      some ((2 : ℕ), (3 : ℕ)) ∧
    0 < (2 : ℕ) ∧
    ((set_footer (fun s => if s = "logo.png" then some ((2 : ℕ), (3 : ℕ)) else none)
        ⟨some (.img (some "logo.png") (some 0.1)), none, none⟩ (some 0.05)).prims =
      [Primitive.image margin3 (0.05 - 0.008)
        (0.1 * (((3 : ℕ) : ℚ) / ((2 : ℕ) : ℚ))) 0.1 "logo.png"] ∧
    (set_footer (fun s => if s = "logo.png" then some ((2 : ℕ), (3 : ℕ)) else none)
        ⟨some (.img (some "logo.png") none), none, none⟩ (some 0.05)).prims =
      [Primitive.image margin3 (0.05 - 0.008)
        (((1 - margin0 - 0.05) / 15) * (((3 : ℕ) : ℚ) / ((2 : ℕ) : ℚ)))
        ((1 - margin0 - 0.05) / 15) "logo.png"]) :=
  ⟨by decide, by decide,
   footer_image_aspect_and_default_height
     (fun s => if s = "logo.png" then some ((2 : ℕ), (3 : ℕ)) else none)
     0.05 "logo.png" 0.1 2 3 (by decide) (by decide)⟩
